import Mathlib

/-!
# Gallery Cache & Reorder Synchronizer — verification development

Shallow embedding of the client-side gallery caching subsystem:

* `js/features/gallery/galleryCache.js` — Cache Store and Reorder Guard
  (`getCachedData`, `setCachedData`, `invalidateGalleryCache`);
* `js/core/storage.js` — localStorage wrappers (`getItem`, `setItem`,
  `removeItem`); each wrapper catches storage exceptions and degrades to
  `null` / no-op, which we model with a `storageFails` flag on the store
  state;
* `js/core/http.js` — `fetchWithRetry`, with network attempt outcomes
  supplied by an oracle indexed by attempt number;
* the gallery coordinator (`renderGallery`, `loadMoreImages`) and
  `galleryApi.js` (`fetchGalleryImages`).

Timestamps are milliseconds since epoch, modelled as `Nat`.  JavaScript's
`Date.now() - ts` can be negative under clock skew; every comparison the
code performs on such a difference (`< 60000`, `> TTL`) gives the same
answer for a negative JS value as for truncated `Nat` subtraction (both
make `now - ts` behave as `0` when `ts > now`), so `Nat` is faithful here.
The cache version string `'vN'` is modelled by its numeric suffix `N`
(the rendering `N ↦ 'vN'` is injective, so string equality of versions
coincides with `Nat` equality).  The reorder timestamp is persisted as a
numeric string and read back through `parseInt`; we model well-formed
numeric strings directly as `Nat`.
-/

namespace GallerySpec

/-- Pagination metadata of a gallery payload
(`{next_cursor, has_more, total_count}` in the API response). -/
structure Pagination where
  next_cursor : Option Nat
  has_more : Bool
  total_count : Nat
deriving DecidableEq, Repr

/-- A first-page gallery payload: ordered image records (modelled by
opaque numeric ids) plus pagination metadata. -/
structure GalleryData where
  images : List Nat
  pagination : Pagination
deriving DecidableEq, Repr

/-- The parsed shape of the `gallery_cache` entry:
`{data, timestamp, version}` (version modelled by its numeric suffix). -/
structure CacheEntry where
  data : GalleryData
  timestamp : Nat
  version : Nat
deriving DecidableEq, Repr

/-- A stored value under the `gallery_cache` key: either JSON that parses
to a cache entry, or malformed text on which `JSON.parse` throws. -/
inductive StoredVal where
  | entry : CacheEntry → StoredVal
  | malformed : StoredVal
deriving DecidableEq, Repr

/-- Persistent + module state of the Cache Store:
the two localStorage keys (`gallery_cache`, `gallery_last_reorder_timestamp`),
the in-memory module variable `CACHE_VERSION`, and a flag modelling an
environment in which every localStorage access throws (the wrappers in
`storage.js` then return `null` / `false` and mutate nothing). -/
structure Store where
  galleryCache : Option StoredVal
  reorderTs : Option Nat
  cacheVersion : Nat
  storageFails : Bool
deriving DecidableEq, Repr

/-- `CACHE_CONFIG.TTL = 15 * 60 * 1000`. -/
def TTL : Nat := 15 * 60 * 1000

/-- The 60-second write/read suppression window after a reorder. -/
def SUPPRESSION_WINDOW : Nat := 60000

/-- `getItem(CACHE_CONFIG.KEY)` through the storage wrapper: returns the
stored value, or `null` when storage access throws. -/
def getCacheItem (s : Store) : Option StoredVal :=
  if s.storageFails then none else s.galleryCache

/-- `getItem(REORDER_TIMESTAMP_KEY)` through the storage wrapper. -/
def getReorderItem (s : Store) : Option Nat :=
  if s.storageFails then none else s.reorderTs

/-- `removeItem(CACHE_CONFIG.KEY)`: deletes the entry, or does nothing when
storage access throws. -/
def removeCacheItem (s : Store) : Store :=
  if s.storageFails then s else { s with galleryCache := none }

/-- `setItem(CACHE_CONFIG.KEY, v)`: stores the value, or does nothing when
storage access throws. -/
def setCacheItem (s : Store) (v : StoredVal) : Store :=
  if s.storageFails then s else { s with galleryCache := some v }

/-- `setItem(REORDER_TIMESTAMP_KEY, t.toString())`. -/
def setReorderItem (s : Store) (t : Nat) : Store :=
  if s.storageFails then s else { s with reorderTs := some t }

/-- The staleness-by-timestamp check in `getCachedData`:
`lastReorderTimestamp && parsed.timestamp < parseInt(lastReorderTimestamp)`. -/
def staleCheck (rts : Option Nat) (ts : Nat) : Bool :=
  match rts with
  | some r => ts < r
  | none => false

/-- What a successful `getCachedData` returns: `{data, timestamp, age}`. -/
structure CacheHit where
  data : GalleryData
  timestamp : Nat
  age : Nat
deriving DecidableEq, Repr

/-- The body of `getCachedData` after the suppression-window check: read the
entry, parse it (malformed ⇒ the catch block removes it and returns null),
then the version, staleness-by-timestamp, and TTL checks, each deleting the
entry on failure.  Returns the result together with the updated store. -/
def getCachedDataBody (now : Nat) (s : Store) (rts : Option Nat) :
    Option CacheHit × Store :=
  match getCacheItem s with
  | none => (none, s)
  | some StoredVal.malformed => (none, removeCacheItem s)
  | some (StoredVal.entry parsed) =>
    if parsed.version ≠ s.cacheVersion then (none, removeCacheItem s)
    else if staleCheck rts parsed.timestamp then (none, removeCacheItem s)
    else if now - parsed.timestamp > TTL then (none, removeCacheItem s)
    else (some ⟨parsed.data, parsed.timestamp, now - parsed.timestamp⟩, s)

/-- `getCachedData()` from `galleryCache.js`: first reads the reorder
timestamp; if a reorder happened within the last 60 seconds it returns
`null` immediately (without touching the cache entry); otherwise it runs
the validity checks of `getCachedDataBody`. -/
def getCachedData (now : Nat) (s : Store) : Option CacheHit × Store :=
  match getReorderItem s with
  | some rts =>
    if now - rts < SUPPRESSION_WINDOW then (none, s)
    else getCachedDataBody now s (some rts)
  | none => getCachedDataBody now s none

/-- `setCachedData(data)` from `galleryCache.js`: if a reorder happened
within the last 60 seconds the write is skipped; otherwise it stores
`{data, timestamp: now, version: CACHE_CONFIG.VERSION}`. -/
def setCachedData (now : Nat) (data : GalleryData) (s : Store) : Store :=
  match getReorderItem s with
  | some rts =>
    if now - rts < SUPPRESSION_WINDOW then s
    else setCacheItem s (StoredVal.entry ⟨data, now, s.cacheVersion⟩)
  | none => setCacheItem s (StoredVal.entry ⟨data, now, s.cacheVersion⟩)

/-- `invalidateGalleryCache()` from `galleryCache.js` (the spec's
`markReordered`): stores `now` as the reorder timestamp first, bumps the
in-memory version counter, then removes the cache entry. -/
def invalidateGalleryCache (now : Nat) (s : Store) : Store :=
  let s1 := setReorderItem s now
  let s2 := { s1 with cacheVersion := s1.cacheVersion + 1 }
  removeCacheItem s2

/-- The result shape of `fetchGalleryImages`:
`{data, fromCache, cacheAge}` with `cacheAge` null on network fetches. -/
structure FetchResult where
  data : GalleryData
  fromCache : Bool
  cacheAge : Option Nat
deriving DecidableEq, Repr

/-- `fetchGalleryImages(cursor, useCache)` from `galleryApi.js`, on its
success path: with no cursor and `useCache`, a valid cache read is returned
with `fromCache = true` and the hit's age; otherwise the network response
(supplied by the `network` oracle, already shape-validated) is returned
with `fromCache = false` and `cacheAge = null`. -/
def fetchGalleryImages (now : Nat) (cursor : Option Nat) (useCache : Bool)
    (network : GalleryData) (s : Store) : FetchResult × Store :=
  if cursor.isNone && useCache then
    match getCachedData now s with
    | (some hit, s1) => (⟨hit.data, true, some hit.age⟩, s1)
    | (none, s1) => (⟨network, false, none⟩, s1)
  else (⟨network, false, none⟩, s)

/-- The recache condition in `renderGallery` (gallery coordinator):
`!fromCache || (cacheAge !== null && cacheAge > 16 * 60 * 1000)`. -/
def shouldRecache (r : FetchResult) : Bool :=
  !r.fromCache ||
    (match r.cacheAge with
     | some a => decide (a > 16 * 60 * 1000)
     | none => false)

/-- The cache-relevant step of `renderGallery`: fetch the first page with
`useCache = true`, then, when `shouldRecache` holds, write the payload
rebuilt from the in-memory state (`{images, pagination: {next_cursor,
has_more, total_count}}`) back through `setCachedData`. -/
def renderGalleryStep (now : Nat) (network : GalleryData) (s : Store) :
    FetchResult × Store :=
  let fetched := fetchGalleryImages now none true network s
  let result := fetched.1
  let s1 := fetched.2
  let data := result.data
  if shouldRecache result then
    (result,
      setCachedData now
        { images := data.images,
          pagination :=
            { next_cursor := data.pagination.next_cursor,
              has_more := data.pagination.has_more,
              total_count := data.pagination.total_count } } s1)
  else (result, s1)

/-- `galleryState.js`: the in-memory page state — accumulated images,
pagination cursor, `hasMore`, and the `isLoading` flag guarding
"load more". -/
structure PageState where
  allImages : List Nat
  nextCursor : Option Nat
  hasMore : Bool
  isLoading : Bool
deriving DecidableEq, Repr

/-- The synchronous prefix of `loadMoreImages` (gallery coordinator), up to
the point where the network request is issued: the guard
`if (getIsLoading() || !getHasMore()) return;`, the missing-button early
return, then `setIsLoading(true)`.  The boolean reports whether a network
request is fired. -/
def loadMoreBegin (hasButton : Bool) (ps : PageState) : PageState × Bool :=
  if ps.isLoading || !ps.hasMore then (ps, false)
  else if !hasButton then (ps, false)
  else ({ ps with isLoading := true }, true)

/-- The continuation of `loadMoreImages` once the fetch settles: on success
append the page, update cursor/hasMore, write the accumulated payload back
through `setCachedData`; on failure restore the button.  Either way the
`finally` block clears the loading flag. -/
def loadMoreFinish (now : Nat) (network : Except Unit GalleryData)
    (ps : PageState) (s : Store) : PageState × Store :=
  match network with
  | Except.ok data =>
    let ps1 : PageState :=
      { ps with
        allImages := ps.allImages ++ data.images,
        nextCursor := data.pagination.next_cursor,
        hasMore := data.pagination.has_more }
    let s1 := setCachedData now
      { images := ps1.allImages,
        pagination :=
          { next_cursor := ps1.nextCursor,
            has_more := ps1.hasMore,
            total_count := data.pagination.total_count } } s
    ({ ps1 with isLoading := false }, s1)
  | Except.error _ => ({ ps with isLoading := false }, s)

/-! ## HTTP layer (`js/core/http.js`, `js/core/config.js`) -/

/-- `CONNECTION_CONFIG.RETRY_ATTEMPTS`. -/
def RETRY_ATTEMPTS : Nat := 3

/-- `CONNECTION_CONFIG.RETRY_DELAY` (ms). -/
def RETRY_DELAY : Nat := 1000

/-- A JavaScript error value as far as `fetchWithRetry` inspects it. -/
structure JsError where
  name : String
  message : String
deriving DecidableEq, Repr

/-- `haystack.includes(needle)` for the message checks. -/
def strIncludes (haystack needle : String) : Bool :=
  (haystack.splitOn needle).length != 1

/-- The `isNetworkError` classification inside `fetchWithRetry`:
`AbortError` (timeout), `TypeError`, or a message mentioning a failed
network fetch. -/
def isNetworkError (e : JsError) : Bool :=
  e.name == "AbortError" || e.name == "TypeError" ||
    strIncludes e.message "Failed to fetch" ||
    strIncludes e.message "NetworkError" ||
    strIncludes e.message "Network request failed"

/-- The message enhancement applied before a network error is re-thrown:
`error.message = `Network error: Unable to reach ${url}. ${error.message
|| 'Please check your internet connection and try again.'}`` (a non-network
error is re-thrown unchanged). -/
def throwEnhanced (url : String) (e : JsError) : JsError :=
  if isNetworkError e then
    { e with
      message := "Network error: Unable to reach " ++ url ++ ". " ++
        (if e.message = "" then
          "Please check your internet connection and try again."
         else e.message) }
  else e

/-- The outcome of one `fetch` attempt: an HTTP response (any status —
`fetchWithRetry` returns every response immediately, the inner 4xx branch
being redundant with the fall-through `return response`), or a thrown
error. -/
inductive FetchOutcome where
  | response : Nat → FetchOutcome
  | failure : JsError → FetchOutcome
deriving DecidableEq, Repr

/-- `fetchWithRetry(url, options, retries)`: attempt outcomes come from
`oracle`, indexed from `k`.  Returns `(result, attempts, totalDelay)`:
the surfaced response status or thrown error, the number of `fetch`
attempts performed, and the summed `setTimeout` delay.  A response is
returned at once; a thrown error is retried after `RETRY_DELAY` only when
`retries > 0` and the error is a network/timeout error. -/
def fetchWithRetry (url : String) (oracle : Nat → FetchOutcome) :
    Nat → Nat → Except JsError Nat × Nat × Nat
  | k, retries =>
    match oracle k with
    | FetchOutcome.response st => (Except.ok st, 1, 0)
    | FetchOutcome.failure e =>
      match retries with
      | 0 => (Except.error (throwEnhanced url e), 1, 0)
      | Nat.succ r =>
        if isNetworkError e then
          let p := fetchWithRetry url oracle (k + 1) r
          (p.1, p.2.1 + 1, RETRY_DELAY + p.2.2)
        else (Except.error (throwEnhanced url e), 1, 0)

/-! ## Concrete sample values (used by witnesses and counterexamples) -/

/-- A concrete gallery payload. -/
def sampleData : GalleryData :=
  ⟨[1, 2, 3], ⟨some 7, true, 3⟩⟩

/-- A second, distinct concrete gallery payload. -/
def sampleData2 : GalleryData :=
  ⟨[4, 5], ⟨none, false, 2⟩⟩

end GallerySpec

namespace GallerySpec

/-! ## Claim theorems -/

/-- C1: for every `setCachedData` call, if a reorder timestamp exists and
`now - lastReorderTimestamp < 60000` ms, the write is a no-op — the stored
entry under the `gallery_cache` key is exactly what it was before. -/
theorem setCachedData_suppressed_noop (now : Nat) (d : GalleryData)
    (s : Store) (rts : Nat) (h1 : s.reorderTs = some rts)
    (h2 : now - rts < SUPPRESSION_WINDOW) :
    (setCachedData now d s).galleryCache = s.galleryCache := by
  unfold setCachedData getReorderItem setCacheItem
  by_cases hf : s.storageFails <;> simp [hf, h1, h2]

/-- Witness for C1 at a concrete store: a write 1000 ms after a reorder at
500 ms leaves the stored entry untouched. -/
theorem setCachedData_suppressed_noop_witness :
    (setCachedData 1000 sampleData2
        ⟨some (StoredVal.entry ⟨sampleData, 400, 2⟩), some 500, 2, false⟩).galleryCache
      = some (StoredVal.entry ⟨sampleData, 400, 2⟩) :=
  setCachedData_suppressed_noop 1000 sampleData2
    ⟨some (StoredVal.entry ⟨sampleData, 400, 2⟩), some 500, 2, false⟩ 500
    rfl (by decide)

/-- C10: a read performed while `now - lastReorderTimestamp < 60000` ms
returns `null` unconditionally — whatever the stored entry looks like —
and leaves the store (in particular the stored entry) unchanged. -/
theorem getCachedData_suppressed (now : Nat) (s : Store) (rts : Nat)
    (h1 : s.reorderTs = some rts) (h2 : now - rts < SUPPRESSION_WINDOW) :
    getCachedData now s = (none, s) := by
  unfold getCachedData getReorderItem getCachedDataBody getCacheItem
  by_cases hf : s.storageFails <;> simp [hf, h1, h2]

/-- Witness for C10 at a concrete store holding a fully valid entry:
a read 30 s after the reorder returns `null` and deletes nothing. -/
theorem getCachedData_suppressed_witness :
    getCachedData 100000
        ⟨some (StoredVal.entry ⟨sampleData, 95000, 2⟩), some 70000, 2, false⟩
      = (none,
        ⟨some (StoredVal.entry ⟨sampleData, 95000, 2⟩), some 70000, 2, false⟩) :=
  getCachedData_suppressed 100000
    ⟨some (StoredVal.entry ⟨sampleData, 95000, 2⟩), some 70000, 2, false⟩
    70000 rfl (by decide)

/-- C5: calling `invalidateGalleryCache` (the spec's `markReordered`) twice
in succession leaves the stored reorder timestamp equal to the time of the
latest call, so the 60-second suppression window is measured from the
latest call: a write is still suppressed whenever it happens within 60 s
of that latest call. -/
theorem invalidate_twice_latest (t1 t2 : Nat) (s : Store)
    (hf : s.storageFails = false) :
    (invalidateGalleryCache t2 (invalidateGalleryCache t1 s)).reorderTs
        = some t2 ∧
    ∀ now d, now - t2 < SUPPRESSION_WINDOW →
      (setCachedData now d
          (invalidateGalleryCache t2 (invalidateGalleryCache t1 s))).galleryCache
        = (invalidateGalleryCache t2
            (invalidateGalleryCache t1 s)).galleryCache := by
  constructor
  · simp [invalidateGalleryCache, setReorderItem, removeCacheItem, hf]
  · intro now d h
    simp [invalidateGalleryCache, setReorderItem, removeCacheItem,
      setCachedData, getReorderItem, setCacheItem, hf, h]

/-- Witness for C5: two reorders at 100 ms and 200 ms leave the stored
reorder timestamp at 200 ms. -/
theorem invalidate_twice_latest_witness :
    (invalidateGalleryCache 200
        (invalidateGalleryCache 100 ⟨none, none, 2, false⟩)).reorderTs
      = some 200 :=
  (invalidate_twice_latest 100 200 ⟨none, none, 2, false⟩ rfl).1

/-- Counterexample to C2 as stated: at `now = 200` with a reorder
timestamp of 200 and a stored entry of timestamp 100 (so the entry's
timestamp is strictly below the reorder timestamp, as C2 requires), the
read returns `null` but the stored entry is NOT deleted — the read is
inside the 60-second suppression window and returns before touching the
entry. -/
theorem getCachedData_stale_ctr :
    (100 : Nat) < 200 ∧
    getCachedData 200
        ⟨some (StoredVal.entry ⟨sampleData, 100, 2⟩), some 200, 2, false⟩
      = (none,
        ⟨some (StoredVal.entry ⟨sampleData, 100, 2⟩), some 200, 2, false⟩) := by
  constructor
  · decide
  · rfl

/-- C2 amended: when the read happens at or after the end of the
60-second suppression window and storage is operational, an entry whose
timestamp is strictly below the reorder timestamp is rejected (`null`)
and deleted — with no further time limit on `now`. -/
theorem getCachedData_stale_deleted (now : Nat) (s : Store) (rts : Nat)
    (e : CacheEntry) (hf : s.storageFails = false)
    (h1 : s.reorderTs = some rts)
    (h2 : s.galleryCache = some (StoredVal.entry e))
    (h3 : e.timestamp < rts)
    (h4 : SUPPRESSION_WINDOW ≤ now - rts) :
    getCachedData now s = (none, { s with galleryCache := none }) := by
  have hns : ¬(now - rts < SUPPRESSION_WINDOW) := not_lt.mpr h4
  unfold getCachedData getReorderItem getCachedDataBody getCacheItem
    removeCacheItem
  by_cases hv : e.version = s.cacheVersion <;>
    simp [hf, h1, h2, hv, hns, staleCheck, h3]

/-- Witness for the amended C2: a read 100 s after the reorder (well past
the 60-second window) rejects and deletes the pre-reorder entry. -/
theorem getCachedData_stale_deleted_witness :
    getCachedData 100200
        ⟨some (StoredVal.entry ⟨sampleData, 100, 2⟩), some 200, 2, false⟩
      = (none, ⟨none, some 200, 2, false⟩) :=
  getCachedData_stale_deleted 100200
    ⟨some (StoredVal.entry ⟨sampleData, 100, 2⟩), some 200, 2, false⟩
    200 ⟨sampleData, 100, 2⟩ rfl rfl rfl (by decide) (by decide)

/-- Counterexample to C6 as stated: at `now = 2000000` the stored entry of
timestamp 0 has age well over the 15-minute TTL, yet because a reorder
happened 10 s ago the read returns `null` WITHOUT deleting the expired
entry. -/
theorem getCachedData_expired_ctr :
    TTL < 2000000 - 0 ∧
    getCachedData 2000000
        ⟨some (StoredVal.entry ⟨sampleData, 0, 2⟩), some 1990000, 2, false⟩
      = (none,
        ⟨some (StoredVal.entry ⟨sampleData, 0, 2⟩), some 1990000, 2, false⟩) := by
  constructor
  · decide
  · rfl

/-- Helper shared by the TTL statements: outside any suppression window,
with operational storage, a read on an entry whose age exceeds the TTL
rejects and deletes it (whatever the version or staleness status). -/
theorem getCachedData_expired_aux (now : Nat) (s : Store)
    (e : CacheEntry) (hf : s.storageFails = false)
    (h1 : s.galleryCache = some (StoredVal.entry e))
    (h2 : ∀ r, s.reorderTs = some r → SUPPRESSION_WINDOW ≤ now - r)
    (h3 : TTL < now - e.timestamp) :
    getCachedData now s = (none, { s with galleryCache := none }) := by
  unfold getCachedData getReorderItem getCachedDataBody getCacheItem
    removeCacheItem
  rcases hr : s.reorderTs with _ | r
  · by_cases hv : e.version = s.cacheVersion <;>
      simp [hf, h1, hv, staleCheck, h3]
  · have hns : ¬(now - r < SUPPRESSION_WINDOW) := not_lt.mpr (h2 r hr)
    by_cases hv : e.version = s.cacheVersion <;>
      by_cases hst : e.timestamp < r <;>
        simp [hf, h1, hv, hns, staleCheck, hst, h3]

/-- C6 amended: when the read happens outside any suppression window and
storage is operational, an entry whose age `now - entry.timestamp`
exceeds the 15-minute TTL is rejected (`null`) and deleted. -/
theorem getCachedData_expired_deleted (now : Nat) (s : Store)
    (e : CacheEntry) (hf : s.storageFails = false)
    (h1 : s.galleryCache = some (StoredVal.entry e))
    (h2 : ∀ r, s.reorderTs = some r → SUPPRESSION_WINDOW ≤ now - r)
    (h3 : TTL < now - e.timestamp) :
    getCachedData now s = (none, { s with galleryCache := none }) :=
  getCachedData_expired_aux now s e hf h1 h2 h3

/-- Witness for the amended C6: with no reorder marker, a 1000-second-old
entry (TTL is 900 s) is rejected and deleted. -/
theorem getCachedData_expired_deleted_witness :
    getCachedData 1000000
        ⟨some (StoredVal.entry ⟨sampleData, 0, 2⟩), none, 2, false⟩
      = (none, ⟨none, none, 2, false⟩) :=
  getCachedData_expired_deleted 1000000
    ⟨some (StoredVal.entry ⟨sampleData, 0, 2⟩), none, 2, false⟩
    ⟨sampleData, 0, 2⟩ rfl rfl (by intro r h; cases h) (by decide)

/-- Counterexample to C9 as stated: at `now = 150`, 50 ms after a reorder,
a malformed stored value makes the read return `null`, but the malformed
value is NOT removed — the suppression-window check returns before the
entry is read or parsed. -/
theorem cache_malformed_ctr :
    getCachedData 150 ⟨some StoredVal.malformed, some 100, 2, false⟩
      = (none, ⟨some StoredVal.malformed, some 100, 2, false⟩) := by
  rfl

/-- C9 amended: Cache Store operations never propagate errors (both are
total functions on the store).  A malformed stored value is treated as
absent and removed, provided the read happens outside the suppression
window with operational storage; and under storage-access failure both
operations degrade to no-cache behavior: the read returns `null` and the
write changes nothing. -/
theorem cache_errs_degrade (now : Nat) (d : GalleryData) (s : Store) :
    (s.storageFails = false →
      s.galleryCache = some StoredVal.malformed →
      (∀ r, s.reorderTs = some r → SUPPRESSION_WINDOW ≤ now - r) →
      getCachedData now s = (none, { s with galleryCache := none })) ∧
    (s.storageFails = true →
      getCachedData now s = (none, s) ∧ setCachedData now d s = s) := by
  constructor
  · intro hf h1 h2
    unfold getCachedData getReorderItem getCachedDataBody getCacheItem
      removeCacheItem
    rcases hr : s.reorderTs with _ | r
    · simp [hf, h1]
    · have hns : ¬(now - r < SUPPRESSION_WINDOW) := not_lt.mpr (h2 r hr)
      simp [hf, h1, hns]
  · intro hf
    constructor
    · unfold getCachedData getReorderItem getCachedDataBody getCacheItem
      simp [hf]
    · unfold setCachedData getReorderItem setCacheItem
      simp [hf]

/-- Witness for the amended C9: a malformed value read 70 s after the
reorder is removed; and with failing storage, a read on a store holding a
valid entry returns `null` without change and a write changes nothing. -/
theorem cache_errs_degrade_witness :
    getCachedData 70100 ⟨some StoredVal.malformed, some 100, 2, false⟩
      = (none, ⟨none, some 100, 2, false⟩) ∧
    getCachedData 5 ⟨some (StoredVal.entry ⟨sampleData, 1, 2⟩), none, 2, true⟩
      = (none, ⟨some (StoredVal.entry ⟨sampleData, 1, 2⟩), none, 2, true⟩) ∧
    setCachedData 5 sampleData2
        ⟨some (StoredVal.entry ⟨sampleData, 1, 2⟩), none, 2, true⟩
      = ⟨some (StoredVal.entry ⟨sampleData, 1, 2⟩), none, 2, true⟩ := by
  refine ⟨?_, ?_, ?_⟩
  · exact (cache_errs_degrade 70100 sampleData2
      ⟨some StoredVal.malformed, some 100, 2, false⟩).1 rfl rfl
      (by intro r h; cases h; decide)
  · exact ((cache_errs_degrade 5 sampleData2
      ⟨some (StoredVal.entry ⟨sampleData, 1, 2⟩), none, 2, true⟩).2 rfl).1
  · exact ((cache_errs_degrade 5 sampleData2
      ⟨some (StoredVal.entry ⟨sampleData, 1, 2⟩), none, 2, true⟩).2 rfl).2

/-- C3: round-trip — writing a payload at `now` when no reorder happened
within the last 60 seconds (and storage is operational), then reading at
any `now2` within the 15-minute TTL with no reorder and no version change
in between, returns exactly that payload (with its write timestamp and
age). -/
theorem cache_roundTrip (now now2 : Nat) (d : GalleryData) (s : Store)
    (hf : s.storageFails = false)
    (hw : ∀ r, s.reorderTs = some r → SUPPRESSION_WINDOW ≤ now - r)
    (h1 : now ≤ now2) (h2 : now2 - now ≤ TTL) :
    getCachedData now2 (setCachedData now d s)
      = (some ⟨d, now, now2 - now⟩, setCachedData now d s) := by
  have hs2 : setCachedData now d s
      = { s with
          galleryCache := some (StoredVal.entry ⟨d, now, s.cacheVersion⟩) } := by
    unfold setCachedData getReorderItem setCacheItem
    rcases hr : s.reorderTs with _ | r
    · simp [hf, hr]
    · simp [hf, hr, not_lt.mpr (hw r hr)]
  rw [hs2]
  have httl : ¬(now2 - now > TTL) := not_lt.mpr h2
  unfold getCachedData getReorderItem getCachedDataBody getCacheItem
  rcases hr : s.reorderTs with _ | r
  · simp [hf, hr, staleCheck, httl]
  · have hwr := hw r hr
    have hnr : ¬(now < r) := by
      intro hlt
      have h0 : now - r = 0 := Nat.sub_eq_zero_of_le (le_of_lt hlt)
      rw [h0] at hwr
      simp [SUPPRESSION_WINDOW] at hwr
    have hsup : ¬(now2 - r < SUPPRESSION_WINDOW) :=
      not_lt.mpr (le_trans hwr (Nat.sub_le_sub_right h1 r))
    simp [hf, hr, hsup, staleCheck, hnr, httl]

/-- Witness for C3: write `sampleData` at 1000 ms into an empty store, read
at 1500 ms — the hit carries `sampleData` with timestamp 1000 and age
500. -/
theorem cache_roundTrip_witness :
    getCachedData 1500 (setCachedData 1000 sampleData ⟨none, none, 2, false⟩)
      = (some ⟨sampleData, 1000, 500⟩,
        setCachedData 1000 sampleData ⟨none, none, 2, false⟩) :=
  cache_roundTrip 1000 1500 sampleData ⟨none, none, 2, false⟩ rfl
    (by intro r h; cases h) (by decide) (by decide)

/-- Counterexample to C4 as stated: at `now = 1020000` ms an entry written
at 0 ms is 17 minutes old.  `fetchFirstPage(useCache = true)` (the
coordinator's first-page load) does NOT return the cached data: the entry
exceeds the 15-minute TTL, so the read rejects it and the result is the
network payload with `fromCache = false` — a foreground fetch, not a
background refresh of a cache hit. -/
theorem fetchFirstPage_aged_ctr :
    (renderGalleryStep 1020000 sampleData2
        ⟨some (StoredVal.entry ⟨sampleData, 0, 2⟩), none, 2, false⟩).1
      = ⟨sampleData2, false, none⟩ ∧
    sampleData2 ≠ sampleData := by
  constructor
  · rfl
  · decide

/-- C4 amended: a cache entry older than the 15-minute TTL (in particular
one aged 17 minutes) is never a valid hit: with operational storage and
outside any suppression window, `fetchFirstPage(true)` deletes the expired
entry, fetches from the network in the foreground, returns the network
payload with `fromCache = false`, and writes that payload back to the
cache with timestamp `now`.  (The coordinator's 16-minute recache branch
only rewrites an aged hit and is unreachable, since every hit has age at
most 15 minutes.) -/
theorem fetchFirstPage_aged_refetches (now : Nat) (net : GalleryData)
    (s : Store) (e : CacheEntry) (hf : s.storageFails = false)
    (h1 : s.galleryCache = some (StoredVal.entry e))
    (h2 : ∀ r, s.reorderTs = some r → SUPPRESSION_WINDOW ≤ now - r)
    (h3 : TTL < now - e.timestamp) :
    renderGalleryStep now net s
      = (⟨net, false, none⟩,
        { s with
          galleryCache := some (StoredVal.entry ⟨net, now, s.cacheVersion⟩) }) := by
  have hget := getCachedData_expired_aux now s e hf h1 h2 h3
  simp only [renderGalleryStep, fetchGalleryImages, Option.isNone_none,
    Bool.and_self, if_true, hget, shouldRecache, Bool.not_false,
    Bool.true_or]
  unfold setCachedData getReorderItem setCacheItem
  rcases hr : s.reorderTs with _ | r
  · simp [hf, hr]
  · simp [hf, hr, not_lt.mpr (h2 r hr)]

/-- Witness for the amended C4: the 17-minute-old entry is replaced by the
network payload, which is returned with `fromCache = false`. -/
theorem fetchFirstPage_aged_refetches_witness :
    renderGalleryStep 1020000 sampleData2
        ⟨some (StoredVal.entry ⟨sampleData, 0, 2⟩), none, 2, false⟩
      = (⟨sampleData2, false, none⟩,
        ⟨some (StoredVal.entry ⟨sampleData2, 1020000, 2⟩), none, 2, false⟩) :=
  fetchFirstPage_aged_refetches 1020000 sampleData2
    ⟨some (StoredVal.entry ⟨sampleData, 0, 2⟩), none, 2, false⟩
    ⟨sampleData, 0, 2⟩ rfl rfl (by intro r h; cases h) (by decide)

/-- C7: the loading flag serializes "load more".  (i) If the flag is set
or `hasMore` is false, `loadMoreImages` is a no-op that fires no network
request; (ii) whenever a request is fired, the flag was set before the
fetch started; (iii) when the fetch settles — success or failure — the
flag is cleared. -/
theorem loadMore_single_flight (hasButton : Bool) (ps : PageState) :
    (ps.isLoading = true ∨ ps.hasMore = false →
      loadMoreBegin hasButton ps = (ps, false)) ∧
    (∀ ps2, loadMoreBegin hasButton ps = (ps2, true) →
      ps2.isLoading = true) ∧
    (∀ now net s, ((loadMoreFinish now net ps s).1).isLoading = false) := by
  refine ⟨?_, ?_, ?_⟩
  · intro h
    unfold loadMoreBegin
    rcases h with h | h <;> simp [h]
  · intro ps2 h
    unfold loadMoreBegin at h
    by_cases h1 : (ps.isLoading || !ps.hasMore) = true
    · simp [h1] at h
    · by_cases h2 : hasButton
      · simp [h1, h2] at h
        subst h
        rfl
      · simp [h1, h2] at h
  · intro now net s
    unfold loadMoreFinish
    cases net <;> simp

/-- Witness for C7: with the loading flag set, a second `loadMoreImages`
call leaves the state unchanged and fires no network request. -/
theorem loadMore_single_flight_witness :
    loadMoreBegin true ⟨[], none, true, true⟩
      = (⟨[], none, true, true⟩, false) :=
  (loadMore_single_flight true ⟨[], none, true, true⟩).1 (Or.inl rfl)

/-- One-step unfolding of `fetchWithRetry`. -/
theorem fetchWithRetry_eq (url : String) (oracle : Nat → FetchOutcome)
    (k retries : Nat) :
    fetchWithRetry url oracle k retries =
      match oracle k with
      | FetchOutcome.response st => (Except.ok st, 1, 0)
      | FetchOutcome.failure e =>
        match retries with
        | 0 => (Except.error (throwEnhanced url e), 1, 0)
        | Nat.succ r =>
          if isNetworkError e then
            let p := fetchWithRetry url oracle (k + 1) r
            (p.1, p.2.1 + 1, RETRY_DELAY + p.2.2)
          else (Except.error (throwEnhanced url e), 1, 0) := by
  conv_lhs => unfold fetchWithRetry

/-- C8: `fetchWithRetry` surfaces any HTTP response (4xx/5xx included)
immediately — one attempt, no delay, no retry; only thrown network or
timeout errors are retried; with `retries` remaining it performs at most
`retries + 1` fetch attempts (so at most 3 retries at the default
`RETRY_ATTEMPTS = 3`); and the total sleep is a fixed `RETRY_DELAY =
1000` ms per retry, i.e. `(attempts - 1) * 1000`. -/
theorem fetchWithRetry_spec (url : String) (oracle : Nat → FetchOutcome)
    (k retries : Nat) :
    1 ≤ (fetchWithRetry url oracle k retries).2.1 ∧
    (fetchWithRetry url oracle k retries).2.1 ≤ retries + 1 ∧
    (fetchWithRetry url oracle k retries).2.2
      = ((fetchWithRetry url oracle k retries).2.1 - 1) * RETRY_DELAY ∧
    (∀ j, j + 1 < (fetchWithRetry url oracle k retries).2.1 →
      ∃ e, oracle (k + j) = FetchOutcome.failure e ∧
        isNetworkError e = true) ∧
    (∀ st, oracle k = FetchOutcome.response st →
      fetchWithRetry url oracle k retries = (Except.ok st, 1, 0)) ∧
    RETRY_ATTEMPTS = 3 ∧ RETRY_DELAY = 1000 := by
  induction retries generalizing k with
  | zero =>
    rw [fetchWithRetry_eq]
    rcases ho : oracle k with st | e <;> simp only [ho]
    · refine ⟨le_refl 1, le_refl 1, by rfl, ?_, ?_, rfl, rfl⟩
      · intro j hj
        omega
      · intro st2 h2
        cases h2
        rfl
    · refine ⟨le_refl 1, le_refl 1, by rfl, ?_, ?_, rfl, rfl⟩
      · intro j hj
        omega
      · intro st2 h2
        cases h2
  | succ r ih =>
    rw [fetchWithRetry_eq]
    rcases ho : oracle k with st | e <;> simp only [ho]
    · refine ⟨le_refl 1, by omega, by rfl, ?_, ?_, rfl, rfl⟩
      · intro j hj
        omega
      · intro st2 h2
        cases h2
        rfl
    · by_cases hn : isNetworkError e = true
      · simp only [if_pos hn]
        obtain ⟨ih1, ih2, ih3, ih4, _, _, _⟩ := ih (k + 1)
        refine ⟨by omega, by omega, ?_, ?_, ?_, rfl, rfl⟩
        · simp only [RETRY_DELAY] at ih3 ⊢
          omega
        · intro j hj
          cases j with
          | zero =>
            exact ⟨e, by simpa using ho, hn⟩
          | succ j2 =>
            have hlt :
                j2 + 1 < (fetchWithRetry url oracle (k + 1) r).2.1 := by
              omega
            have hres := ih4 j2 hlt
            rw [show k + (j2 + 1) = k + 1 + j2 by omega]
            exact hres
        · intro st2 h2
          cases h2
      · simp only [if_neg hn]
        refine ⟨le_refl 1, by omega, by rfl, ?_, ?_, rfl, rfl⟩
        · intro j hj
          omega
        · intro st2 h2
          cases h2

/-- Witness for C8: an oracle answering HTTP 503 on the first attempt —
`fetchWithRetry` with the default 3 retries surfaces the 5xx response
immediately, after exactly one attempt and zero delay. -/
theorem fetchWithRetry_spec_witness :
    fetchWithRetry "https://api.example/gallery"
        (fun _ => FetchOutcome.response 503) 0 RETRY_ATTEMPTS
      = (Except.ok 503, 1, 0) :=
  (fetchWithRetry_spec "https://api.example/gallery"
      (fun _ => FetchOutcome.response 503) 0 RETRY_ATTEMPTS).2.2.2.2.1
    503 rfl

end GallerySpec
